import Mathlib

/-!
Verification of the node-image-edits request-validation and crop-geometry
logic against its natural-language specification.

The JavaScript sources are shallowly embedded.  A JavaScript number is
modelled as either NaN or an exact decimal fraction `n / 10 ^ e`
(constructor `JsNum.dec n e`); every number produced by the routes'
`parseInt`/`parseFloat`/`Number` calls is such a fraction, and all
comparisons the validators perform are decided by integer
cross-multiplication, so each embedded handler is executable by kernel
reduction.  Floating-point rounding, `Infinity` and `0b`/`0o` numeric
literals are not modelled; no validated request path depends on them.
`Math.round` is floor (x + 1/2), which is Mathlib's `round`.  Strings are
processed through their character lists so that every definition is
executable.
-/

/-- Models a JavaScript number: either NaN or the exact decimal fraction
`n / 10 ^ e`. -/
inductive JsNum
  | nan
  | dec (n : ℤ) (e : ℕ)
  deriving DecidableEq, Repr

namespace JsNum

/-- Rational value of a modelled JavaScript number, `none` for NaN. -/
def val : JsNum → Option ℚ
  | .nan => none
  | .dec n e => some ((n : ℚ) / 10 ^ e)

/-- Models the JavaScript `<` comparison on numbers: any comparison with
NaN is false, and fractions are compared by cross-multiplication. -/
def ltB : JsNum → JsNum → Bool
  | .dec a ea, .dec b eb => decide (a * 10 ^ eb < b * 10 ^ ea)
  | _, _ => false

/-- Models JavaScript truthiness of a number: `0` and `NaN` are falsy. -/
def truthy : JsNum → Bool
  | .nan => false
  | .dec n _ => n != 0

/-- The cross-multiplied comparison agrees with the rational values. -/
theorem ltB_eq_true_iff (a b : ℤ) (ea eb : ℕ) :
    (JsNum.dec a ea).ltB (JsNum.dec b eb) = true ↔
      (a : ℚ) / 10 ^ ea < (b : ℚ) / 10 ^ eb := by
  have ha : (0 : ℚ) < 10 ^ ea := by positivity
  have hb : (0 : ℚ) < 10 ^ eb := by positivity
  rw [ltB, decide_eq_true_eq, div_lt_div_iff₀ ha hb]
  constructor
  · intro h
    exact_mod_cast h
  · intro h
    exact_mod_cast h

/-- Truthiness of a fraction agrees with its rational value being
nonzero. -/
theorem truthy_dec_iff (n : ℤ) (e : ℕ) :
    (JsNum.dec n e).truthy = true ↔ ((n : ℚ) / 10 ^ e) ≠ 0 := by
  have he : (10 : ℚ) ^ e ≠ 0 := by positivity
  rw [truthy, bne_iff_ne, div_ne_zero_iff]
  constructor
  · intro h
    exact ⟨Int.cast_ne_zero.mpr h, he⟩
  · intro h
    exact_mod_cast h.1

end JsNum

/-- Models `v < k` for an optional number, as in the route handlers where a
field may be `undefined`: comparisons with `undefined` are false.  All the
routes' bounds are integer literals. -/
def jsLtOpt (o : Option JsNum) (k : ℤ) : Bool :=
  match o with
  | some v => v.ltB (.dec k 0)
  | none => false

/-- Models `v > k` for an optional number. -/
def jsGtOpt (o : Option JsNum) (k : ℤ) : Bool :=
  match o with
  | some v => JsNum.ltB (.dec k 0) v
  | none => false

/-- Models JavaScript truthiness of an optional number (`undefined` is
falsy). -/
def optNumTruthy : Option JsNum → Bool
  | none => false
  | some v => v.truthy

/-- Numeric value of a decimal digit character. -/
def digitVal (c : Char) : ℕ := c.toNat - '0'.toNat

/-- Value of a list of decimal digit characters, most significant first. -/
def decVal (ds : List Char) : ℕ :=
  ds.foldl (fun n c => 10 * n + digitVal c) 0

/-- Hexadecimal digit test, as accepted by `parseInt` after a `0x` prefix. -/
def isHexDigit (c : Char) : Bool :=
  c.isDigit || ('a' ≤ c && c ≤ 'f') || ('A' ≤ c && c ≤ 'F')

/-- Numeric value of a hexadecimal digit character. -/
def hexDigitVal (c : Char) : ℕ :=
  if c.isDigit then digitVal c
  else if 'a' ≤ c && c ≤ 'f' then c.toNat - 'a'.toNat + 10
  else c.toNat - 'A'.toNat + 10

/-- Value of a list of hexadecimal digit characters, most significant
first. -/
def hexVal (ds : List Char) : ℕ :=
  ds.foldl (fun n c => 16 * n + hexDigitVal c) 0

/-- Leading-whitespace strip on a character list, as `parseInt`,
`parseFloat` and `Number` do before scanning. -/
def dropWs (cs : List Char) : List Char :=
  cs.dropWhile Char.isWhitespace

/-- Optional sign scan: returns the sign and the remaining characters. -/
def scanSign (cs : List Char) : ℤ × List Char :=
  match cs with
  | '-' :: rest => (-1, rest)
  | '+' :: rest => (1, rest)
  | _ => (1, cs)

/-- Models JavaScript `parseInt(s)` (no radix argument): leading whitespace
and an optional sign are skipped, a `0x`/`0X` prefix switches to
hexadecimal, the longest digit prefix is converted and trailing characters
are ignored; no digits yields NaN. -/
def jsParseInt (s : String) : JsNum :=
  let (sign, cs) := scanSign (dropWs s.data)
  match cs with
  | '0' :: 'x' :: rest =>
      let ds := rest.takeWhile isHexDigit
      if ds.isEmpty then .nan else .dec (sign * (hexVal ds : ℤ)) 0
  | '0' :: 'X' :: rest =>
      let ds := rest.takeWhile isHexDigit
      if ds.isEmpty then .nan else .dec (sign * (hexVal ds : ℤ)) 0
  | _ =>
      let ds := cs.takeWhile Char.isDigit
      if ds.isEmpty then .nan else .dec (sign * (decVal ds : ℤ)) 0

/-- Decimal fraction with value `base * 10 ^ scale` for a signed scale. -/
def mkScaled (base : ℤ) (scale : ℤ) : JsNum :=
  match scale with
  | .ofNat k => .dec (base * 10 ^ k) 0
  | .negSucc k => .dec base (k + 1)

/-- Exponent scan for `parseFloat`: an `e`/`E` followed by an optional sign
and at least one digit; anything else contributes exponent 0, matching
`parseFloat` stopping at the first invalid character. -/
def scanExp (cs : List Char) : ℤ :=
  match cs with
  | 'e' :: rest | 'E' :: rest =>
      let (es, rest2) := scanSign rest
      let ds := rest2.takeWhile Char.isDigit
      if ds.isEmpty then 0 else es * (decVal ds : ℤ)
  | _ => 0

/-- Models JavaScript `parseFloat(s)`: leading whitespace and an optional
sign are skipped, then the longest prefix of the form
`digits[.digits][(e|E)[sign]digits]` is converted; trailing characters are
ignored and no digits at all yields NaN.  `Infinity` literals are not
modelled. -/
def jsParseFloat (s : String) : JsNum :=
  let (sign, cs) := scanSign (dropWs s.data)
  let ip := cs.takeWhile Char.isDigit
  let rest := cs.dropWhile Char.isDigit
  match rest with
  | '.' :: rest1 =>
      let fp := rest1.takeWhile Char.isDigit
      let rest2 := rest1.dropWhile Char.isDigit
      if ip.isEmpty && fp.isEmpty then .nan
      else mkScaled (sign * ((decVal ip : ℤ) * 10 ^ fp.length + (decVal fp : ℤ)))
        (scanExp rest2 - fp.length)
  | _ =>
      if ip.isEmpty then .nan
      else mkScaled (sign * (decVal ip : ℤ)) (scanExp rest)

/-- Models JavaScript `Number(s)` for the strings reaching the aspect-ratio
parser: after trimming, the empty string converts to 0, a full-string
decimal literal `[sign]digits[.digits][(e|E)[sign]digits]` converts to its
value, a full-string unsigned `0x` literal converts to its hexadecimal
value, and anything else (including `Infinity` and `0b`/`0o` literals,
which are not modelled) is NaN. -/
def jsNumberCore (cs0 : List Char) : JsNum :=
  let cs1 := (dropWs cs0).reverse
  let cs := (dropWs cs1).reverse
  if cs.isEmpty then .dec 0 0
  else
    match cs with
    | '0' :: 'x' :: rest =>
        if !rest.isEmpty && rest.all isHexDigit then .dec (hexVal rest : ℤ) 0 else .nan
    | '0' :: 'X' :: rest =>
        if !rest.isEmpty && rest.all isHexDigit then .dec (hexVal rest : ℤ) 0 else .nan
    | _ =>
        let (sign, cs2) := scanSign cs
        let ip := cs2.takeWhile Char.isDigit
        let rest := cs2.dropWhile Char.isDigit
        match rest with
        | [] => if ip.isEmpty then .nan else .dec (sign * (decVal ip : ℤ)) 0
        | '.' :: rest1 =>
            let fp := rest1.takeWhile Char.isDigit
            let rest2 := rest1.dropWhile Char.isDigit
            if ip.isEmpty && fp.isEmpty then .nan
            else
              match rest2 with
              | [] =>
                  mkScaled (sign * ((decVal ip : ℤ) * 10 ^ fp.length + (decVal fp : ℤ)))
                    (-(fp.length : ℤ))
              | 'e' :: rest3 | 'E' :: rest3 =>
                  let (es, rest4) := scanSign rest3
                  let ds := rest4.takeWhile Char.isDigit
                  if !ds.isEmpty && (rest4.dropWhile Char.isDigit).isEmpty then
                    mkScaled (sign * ((decVal ip : ℤ) * 10 ^ fp.length + (decVal fp : ℤ)))
                      (es * (decVal ds : ℤ) - fp.length)
                  else .nan
              | _ => .nan
        | 'e' :: rest3 | 'E' :: rest3 =>
            if ip.isEmpty then .nan
            else
              let (es, rest4) := scanSign rest3
              let ds := rest4.takeWhile Char.isDigit
              if !ds.isEmpty && (rest4.dropWhile Char.isDigit).isEmpty then
                mkScaled (sign * (decVal ip : ℤ)) (es * (decVal ds : ℤ))
              else .nan
        | _ => .nan

/-- Splits a character list at `:` separators, as `aspect.split(":")`. -/
def splitColsAux : List Char → List Char → List (List Char)
  | [], acc => [acc.reverse]
  | c :: rest, acc =>
      if c = ':' then acc.reverse :: splitColsAux rest [] else splitColsAux rest (c :: acc)

/-- Models `s.split(":")` on the underlying character list. -/
def splitCols (cs : List Char) : List (List Char) :=
  splitColsAux cs []

/-- Models the crop route's aspect pattern test
`/^[0-9]+:[0-9]+$/.test(aspect)` (src/routes/v1/crop.js line 210): the
string must be two nonempty all-digit runs separated by a single colon. -/
def aspectRegexOk (s : String) : Bool :=
  match splitCols s.data with
  | [a, b] => !a.isEmpty && !b.isEmpty && a.all Char.isDigit && b.all Char.isDigit
  | _ => false

/-- Models the aspect parse in `ImageService.crop`
(src/services/image-service.js line 92): `aspect.split(":").map(Number)`
destructured into the width and height components; a missing component is
`undefined`, whose later numeric use behaves as NaN. -/
def parseAspectPair (s : String) : JsNum × JsNum :=
  let nums := (splitCols s.data).map jsNumberCore
  (nums.getD 0 JsNum.nan, nums.getD 1 JsNum.nan)

/-- The resolved crop rectangle `{left, top, width, height}` passed to the
external extract call (src/services/image-service.js line 131). -/
structure ResolvedRectangle where
  left : ℤ
  top : ℤ
  width : ℤ
  height : ℤ
  deriving DecidableEq, Repr

/-- The gravity values the crop route accepts
(src/routes/v1/crop.js line 214). -/
def validGravities : List String :=
  ["center", "north", "south", "east", "west"]

/-- Models the aspect-crop geometry resolver of `ImageService.crop`
(src/services/image-service.js lines 101-129): `targetAspect` and
`imageAspect` are the real-number ratios, the wider-branch crop keeps the
full source height and derives the width, the other branch keeps the full
source width and derives the height, and the offset on the reduced axis is
selected by the gravity string with every unrecognized value falling to the
centered default. -/
def resolveAspectCrop (ratioW ratioH : ℕ) (gravity : String) (sw sh : ℕ) :
    ResolvedRectangle :=
  let targetAspect : ℚ := (ratioW : ℚ) / (ratioH : ℚ)
  let imageAspect : ℚ := (sw : ℚ) / (sh : ℚ)
  if targetAspect < imageAspect then
    let extractWidth : ℤ := round ((sh : ℚ) * targetAspect)
    { left :=
        if gravity = "west" then 0
        else if gravity = "east" then (sw : ℤ) - extractWidth
        else round ((((sw : ℤ) - extractWidth : ℤ) : ℚ) / 2),
      top := 0,
      width := extractWidth,
      height := (sh : ℤ) }
  else
    let extractHeight : ℤ := round ((sw : ℚ) / targetAspect)
    { left := 0,
      top :=
        if gravity = "north" then 0
        else if gravity = "south" then (sh : ℤ) - extractHeight
        else round ((((sh : ℤ) - extractHeight : ℤ) : ℚ) / 2),
      width := (sw : ℤ),
      height := extractHeight }

/-- Rounding a nonnegative rational is nonnegative. -/
theorem round_nonneg_of_nonneg {x : ℚ} (hx : 0 ≤ x) : 0 ≤ round x := by
  rw [round_eq]
  exact Int.floor_nonneg.mpr (by linarith)

/-- Rounding a rational bounded by an integer stays at most that integer. -/
theorem round_le_int {x : ℚ} {n : ℤ} (h : x ≤ (n : ℚ)) : round x ≤ n := by
  rw [round_eq]
  have h2 : x + 1 / 2 < ((n + 1 : ℤ) : ℚ) := by push_cast; linarith
  exact Int.lt_add_one_iff.mp (Int.floor_lt.mpr h2)

/-- The centered offset `round(d / 2)` of a nonnegative integer gap `d`
stays within the gap. -/
theorem round_half_between {d : ℤ} (hd : 0 ≤ d) :
    0 ≤ round ((d : ℚ) / 2) ∧ round ((d : ℚ) / 2) ≤ d := by
  have h0 : (0 : ℚ) ≤ (d : ℚ) := by exact_mod_cast hd
  constructor
  · exact round_nonneg_of_nonneg (by linarith)
  · exact round_le_int (by linarith)

/-- Width bound for the wider-source branch: the derived crop width is
nonnegative and fits inside the source width. -/
theorem branch1_width_bounds (rW rH sw sh : ℕ) (hrH : 1 ≤ rH) (hsh : 1 ≤ sh)
    (hb : ((rW : ℚ) / rH) < ((sw : ℚ) / sh)) :
    0 ≤ round ((sh : ℚ) * ((rW : ℚ) / rH)) ∧
      round ((sh : ℚ) * ((rW : ℚ) / rH)) ≤ (sw : ℤ) := by
  have hrHq : (0 : ℚ) < rH := by exact_mod_cast hrH
  have hshq : (0 : ℚ) < sh := by exact_mod_cast hsh
  constructor
  · exact round_nonneg_of_nonneg (by positivity)
  · apply round_le_int
    rw [div_lt_div_iff₀ hrHq hshq] at hb
    have h2 : (sh : ℚ) * ((rW : ℚ) / rH) ≤ (sw : ℚ) := by
      rw [mul_div_assoc', div_le_iff₀ hrHq]
      nlinarith [hb]
    push_cast
    linarith

/-- Height bound for the taller-or-equal branch: the derived crop height is
nonnegative and fits inside the source height. -/
theorem branch2_height_bounds (rW rH sw sh : ℕ) (hrW : 1 ≤ rW) (hrH : 1 ≤ rH)
    (hsh : 1 ≤ sh)
    (hb : ((sw : ℚ) / sh) ≤ ((rW : ℚ) / rH)) :
    0 ≤ round ((sw : ℚ) / ((rW : ℚ) / rH)) ∧
      round ((sw : ℚ) / ((rW : ℚ) / rH)) ≤ (sh : ℤ) := by
  have hrWq : (0 : ℚ) < rW := by exact_mod_cast hrW
  have hrHq : (0 : ℚ) < rH := by exact_mod_cast hrH
  have hshq : (0 : ℚ) < sh := by exact_mod_cast hsh
  constructor
  · exact round_nonneg_of_nonneg (by positivity)
  · apply round_le_int
    rw [div_le_div_iff₀ hshq hrHq] at hb
    have h2 : (sw : ℚ) / ((rW : ℚ) / rH) ≤ (sh : ℚ) := by
      rw [div_div_eq_mul_div, div_le_iff₀ hrWq]
      nlinarith [hb]
    push_cast
    linarith

/-- C1: for every valid aspect spec (positive integer ratio components,
gravity among center, north, south, east, west) and every source bounds
with positive width and height, the rectangle produced by the aspect-crop
geometry resolver satisfies 0 ≤ left, 0 ≤ top, left + width ≤ sourceWidth
and top + height ≤ sourceHeight. -/
theorem aspectCrop_within_bounds (ratioW ratioH sw sh : ℕ) (gravity : String)
    (hrW : 1 ≤ ratioW) (hrH : 1 ≤ ratioH) (hsw : 1 ≤ sw) (hsh : 1 ≤ sh)
    (hg : gravity ∈ validGravities) :
    0 ≤ (resolveAspectCrop ratioW ratioH gravity sw sh).left ∧
    0 ≤ (resolveAspectCrop ratioW ratioH gravity sw sh).top ∧
    (resolveAspectCrop ratioW ratioH gravity sw sh).left +
      (resolveAspectCrop ratioW ratioH gravity sw sh).width ≤ (sw : ℤ) ∧
    (resolveAspectCrop ratioW ratioH gravity sw sh).top +
      (resolveAspectCrop ratioW ratioH gravity sw sh).height ≤ (sh : ℤ) := by
  simp only [resolveAspectCrop]
  split_ifs with hb hw he hn hs
  · obtain ⟨h0, h1⟩ := branch1_width_bounds ratioW ratioH sw sh hrH hsh hb
    refine ⟨?_, ?_, ?_, ?_⟩ <;> simp <;> push_cast <;> omega
  · obtain ⟨h0, h1⟩ := branch1_width_bounds ratioW ratioH sw sh hrH hsh hb
    refine ⟨?_, ?_, ?_, ?_⟩ <;> simp <;> push_cast <;> omega
  · obtain ⟨h0, h1⟩ := branch1_width_bounds ratioW ratioH sw sh hrH hsh hb
    obtain ⟨h2, h3⟩ := round_half_between
      (d := (sw : ℤ) - round ((sh : ℚ) * ((ratioW : ℚ) / ratioH))) (by omega)
    push_cast at h2 h3
    refine ⟨?_, ?_, ?_, ?_⟩ <;> simp <;> push_cast <;> omega
  · obtain ⟨h0, h1⟩ := branch2_height_bounds ratioW ratioH sw sh hrW hrH hsh (not_lt.mp hb)
    refine ⟨?_, ?_, ?_, ?_⟩ <;> simp <;> push_cast <;> omega
  · obtain ⟨h0, h1⟩ := branch2_height_bounds ratioW ratioH sw sh hrW hrH hsh (not_lt.mp hb)
    refine ⟨?_, ?_, ?_, ?_⟩ <;> simp <;> push_cast <;> omega
  · obtain ⟨h0, h1⟩ := branch2_height_bounds ratioW ratioH sw sh hrW hrH hsh (not_lt.mp hb)
    obtain ⟨h2, h3⟩ := round_half_between
      (d := (sh : ℤ) - round ((sw : ℚ) / ((ratioW : ℚ) / ratioH))) (by omega)
    push_cast at h2 h3
    refine ⟨?_, ?_, ?_, ?_⟩ <;> simp <;> push_cast <;> omega

/-- Witness for C1 at the concrete spec example: a 1:1 centered crop of an
800 by 600 source stays within the source bounds. -/
theorem aspectCrop_within_bounds_witness :
    0 ≤ (resolveAspectCrop 1 1 "center" 800 600).left ∧
    0 ≤ (resolveAspectCrop 1 1 "center" 800 600).top ∧
    (resolveAspectCrop 1 1 "center" 800 600).left +
      (resolveAspectCrop 1 1 "center" 800 600).width ≤ ((800 : ℕ) : ℤ) ∧
    (resolveAspectCrop 1 1 "center" 800 600).top +
      (resolveAspectCrop 1 1 "center" 800 600).height ≤ ((600 : ℕ) : ℤ) :=
  aspectCrop_within_bounds 1 1 800 600 "center" (by norm_num) (by norm_num)
    (by norm_num) (by norm_num) (by decide)

/-- C5: gravity values orthogonal to the branch chosen by the geometry
resolver have no effect: when the source is strictly wider than the target
aspect, north and south resolve exactly as center; when the source is
relatively taller than or equal to the target aspect, east and west resolve
exactly as center. -/
theorem aspectCrop_gravity_orthogonal (ratioW ratioH sw sh : ℕ) :
    (((ratioW : ℚ) / ratioH < (sw : ℚ) / sh) →
      resolveAspectCrop ratioW ratioH "north" sw sh =
        resolveAspectCrop ratioW ratioH "center" sw sh ∧
      resolveAspectCrop ratioW ratioH "south" sw sh =
        resolveAspectCrop ratioW ratioH "center" sw sh) ∧
    (((sw : ℚ) / sh ≤ (ratioW : ℚ) / ratioH) →
      resolveAspectCrop ratioW ratioH "east" sw sh =
        resolveAspectCrop ratioW ratioH "center" sw sh ∧
      resolveAspectCrop ratioW ratioH "west" sw sh =
        resolveAspectCrop ratioW ratioH "center" sw sh) := by
  constructor
  · intro h
    constructor <;> · simp only [resolveAspectCrop, if_pos h, String.reduceEq, reduceIte]
  · intro h
    constructor <;> · simp only [resolveAspectCrop, if_neg (not_lt.mpr h),
      String.reduceEq, reduceIte]

/-- Witness for C5: on an 800 by 600 source a 1:1 crop ignores north, and on
a 600 by 800 source a 1:1 crop ignores east. -/
theorem aspectCrop_gravity_orthogonal_witness :
    resolveAspectCrop 1 1 "north" 800 600 = resolveAspectCrop 1 1 "center" 800 600 ∧
    resolveAspectCrop 1 1 "east" 600 800 = resolveAspectCrop 1 1 "center" 600 800 :=
  ⟨((aspectCrop_gravity_orthogonal 1 1 800 600).1 (by norm_num)).1,
   ((aspectCrop_gravity_orthogonal 1 1 600 800).2 (by norm_num)).1⟩

/-- C6: resolving a 1:1 aspect spec with gravity center against an 800 by
600 source yields exactly the rectangle with width 600, height 600,
left 100 and top 0. -/
theorem aspectCrop_square_800x600 :
    resolveAspectCrop 1 1 "center" 800 600 =
      { left := 100, top := 0, width := 600, height := 600 } := by
  have hb : ((1 : ℕ) : ℚ) / ((1 : ℕ) : ℚ) < ((800 : ℕ) : ℚ) / ((600 : ℕ) : ℚ) := by
    norm_num
  simp only [resolveAspectCrop, if_pos hb]
  norm_num [ResolvedRectangle.mk.injEq]
  decide

/-- Error outcome of a route handler before the external processing call:
an `InvalidInput` rejection (HTTP 400) or an unsupported-media rejection
(HTTP 415). -/
inductive RouteError
  | invalidInput (message : String)
  | unsupportedMediaType (message : String)
  deriving DecidableEq, Repr

/-- Holds exactly when a route outcome is an `InvalidInput` (HTTP 400)
rejection. -/
def isInvalidInput {α : Type} (r : Except RouteError α) : Prop :=
  match r with
  | .error (.invalidInput _) => True
  | _ => False

/-- Raw multipart form fields of a crop request
(src/routes/v1/crop.js): `none` models an absent field. -/
structure CropFields where
  x : Option String := none
  y : Option String := none
  width : Option String := none
  height : Option String := none
  aspect : Option String := none
  gravity : Option String := none
  format : Option String := none
  quality : Option String := none
  mimetype : String := "image/jpeg"
  deriving Repr

/-- The options a successful crop request passes to `imageService.crop`
(src/routes/v1/crop.js lines 238-247); producing this value models
invoking the external processing call. -/
structure CropCall where
  x : Option JsNum
  y : Option JsNum
  width : Option JsNum
  height : Option JsNum
  aspect : Option String
  gravity : String
  format : String
  quality : Option JsNum
  deriving DecidableEq, Repr

/-- Models `field?.value ? parseInt(field.value) : undefined`: an absent
field or an empty (falsy) value stays `undefined`, anything else is parsed
with `parseInt`. -/
def intField (f : Option String) : Option JsNum :=
  match f with
  | none => none
  | some s => if s = "" then none else some (jsParseInt s)

/-- Models `field?.value ? parseFloat(field.value) : undefined`. -/
def floatField (f : Option String) : Option JsNum :=
  match f with
  | none => none
  | some s => if s = "" then none else some (jsParseFloat s)

/-- Models `field?.value || default`: an absent field or an empty value
falls back to the default string. -/
def orDefault (f : Option String) (d : String) : String :=
  match f with
  | none => d
  | some s => if s = "" then d else s

/-- Models JavaScript truthiness of an optional string
(`undefined` and the empty string are falsy). -/
def truthyStr : Option String → Bool
  | none => false
  | some s => s != ""

/-- The mime types the authenticated v1 routes accept
(src/routes/v1/crop.js line 232). -/
def allowedMimeTypes : List String :=
  ["image/jpeg", "image/png", "image/webp", "image/heic", "image/heif"]

/-- Message of the crop route's incomplete-rectangle rejection
(src/routes/v1/crop.js line 198). -/
def rectIncompleteMsg : String :=
  "Rectangle crop requires all of: x, y, width, height"

/-- Models the crop route handler validation
(src/routes/v1/crop.js lines 174-247): field parsing, the crop-mode
check, the rectangle checks, the aspect and gravity checks, the format and
quality checks and the mime-type check, in source order; the success value
is the argument record of the `imageService.crop` call. -/
def cropValidate (f : CropFields) : Except RouteError CropCall :=
  let x := intField f.x
  let y := intField f.y
  let width := intField f.width
  let height := intField f.height
  let aspect := f.aspect
  let gravity := orDefault f.gravity "center"
  let format := f.format
  let quality := intField f.quality
  let hasRectCrop := x.isSome || y.isSome || width.isSome || height.isSome
  let hasAspectCrop := aspect.isSome
  if !hasRectCrop && !hasAspectCrop then
    .error (.invalidInput
      "Either rectangle crop (x, y, width, height) or aspect crop (aspect) must be provided")
  else if hasRectCrop && (x.isNone || y.isNone || width.isNone || height.isNone) then
    .error (.invalidInput rectIncompleteMsg)
  else if hasRectCrop && (jsLtOpt x 0 || jsLtOpt y 0) then
    .error (.invalidInput "x and y must be >= 0")
  else if hasRectCrop && (jsLtOpt width 1 || jsLtOpt height 1) then
    .error (.invalidInput "width and height must be >= 1")
  else if (hasAspectCrop && !hasRectCrop) && !aspectRegexOk (aspect.getD "") then
    .error (.invalidInput "Aspect must be in format width:height (e.g., 16:9)")
  else if (hasAspectCrop && !hasRectCrop) && !(validGravities.contains gravity) then
    .error (.invalidInput
      "Invalid gravity. Must be one of: center, north, south, east, west")
  else if truthyStr format && !(["jpg"].contains (f.format.getD "")) then
    .error (.invalidInput "Invalid format. Must be one of: jpg")
  else if optNumTruthy quality && (jsLtOpt quality 1 || jsGtOpt quality 100) then
    .error (.invalidInput "Quality must be between 1 and 100")
  else if !(allowedMimeTypes.contains f.mimetype) then
    .error (.unsupportedMediaType "File must be an image (jpg, png, webp, heic)")
  else
    .ok { x, y, width, height, aspect, gravity, format := orDefault format "jpg", quality }

/-- Raw multipart form fields of a remove-bg request
(src/unnamed/part_007, remove-bg route). -/
structure RemoveBgFields where
  output : Option String := none
  format : Option String := none
  feather : Option String := none
  threshold : Option String := none
  mimetype : String := "image/jpeg"
  deriving Repr

/-- The options a successful remove-bg request passes to
`imageService.removeBackground`. -/
structure RemoveBgCall where
  output : String
  format : String
  feather : Option JsNum
  threshold : Option JsNum
  deriving DecidableEq, Repr

/-- Models the remove-bg route handler validation
(src/unnamed/part_007 lines 44-84): the output check, the format check,
the feather range check, the threshold range check and the mime-type
check, in source order; the success value is the argument record of the
`imageService.removeBackground` call. -/
def removeBgValidate (f : RemoveBgFields) : Except RouteError RemoveBgCall :=
  let output := orDefault f.output "image"
  let format := f.format
  let feather := floatField f.feather
  let threshold := intField f.threshold
  if !(["image", "mask"].contains output) then
    .error (.invalidInput "Invalid output. Must be one of: image, mask")
  else if truthyStr format && !(["jpg"].contains (f.format.getD "")) then
    .error (.invalidInput "Invalid format. Must be one of: jpg")
  else if feather.isSome && (jsLtOpt feather 0 || jsGtOpt feather 10) then
    .error (.invalidInput "Feather must be between 0 and 10")
  else if threshold.isSome && (jsLtOpt threshold 0 || jsGtOpt threshold 255) then
    .error (.invalidInput "Threshold must be between 0 and 255")
  else if !(allowedMimeTypes.contains f.mimetype) then
    .error (.unsupportedMediaType "File must be an image (jpg, png, webp, heic)")
  else
    .ok { output, format := orDefault format "jpg", feather, threshold }

/-- Raw multipart form fields of an extract-colors request
(src/unnamed/part_008). -/
structure ExtractColorsFields where
  maxColors : Option String := none
  multicolorThreshold : Option String := none
  mimetype : String := "image/jpeg"
  deriving Repr

/-- The options a successful extract-colors request passes to
`imageService.extractColors`. -/
structure ExtractColorsCall where
  maxColors : JsNum
  multicolorThreshold : JsNum
  deriving DecidableEq, Repr

/-- Models the extract-colors route handler validation
(src/unnamed/part_008 lines 73-98): `maxColors` defaults to 3 and
`multicolorThreshold` to 0.20 when absent or empty, the two range checks
run unconditionally, then the mime-type check; the success value is the
argument record of the `imageService.extractColors` call. -/
def extractColorsValidate (f : ExtractColorsFields) :
    Except RouteError ExtractColorsCall :=
  let maxColors :=
    match f.maxColors with
    | none => JsNum.dec 3 0
    | some s => if s = "" then JsNum.dec 3 0 else jsParseInt s
  let thr :=
    match f.multicolorThreshold with
    | none => JsNum.dec 20 2
    | some s => if s = "" then JsNum.dec 20 2 else jsParseFloat s
  if maxColors.ltB (.dec 1 0) || (JsNum.dec 10 0).ltB maxColors then
    .error (.invalidInput "maxColors must be between 1 and 10")
  else if thr.ltB (.dec 0 0) || (JsNum.dec 1 0).ltB thr then
    .error (.invalidInput "multicolorThreshold must be between 0 and 1")
  else if !(allowedMimeTypes.contains f.mimetype) then
    .error (.unsupportedMediaType "File must be an image (jpg, png, webp, heic)")
  else
    .ok { maxColors, multicolorThreshold := thr }

/-- Parsing to an integer with parseInt means the string was nonempty. -/
theorem jsParseInt_ne_empty {s : String} {n : ℤ} (h : jsParseInt s = .dec n 0) :
    s ≠ "" := by
  intro he
  rw [he, (by decide : jsParseInt "" = JsNum.nan)] at h
  exact JsNum.noConfusion h

/-- Parsing to a non-NaN value with parseFloat means the string was
nonempty. -/
theorem jsParseFloat_ne_empty {s : String} {v : JsNum} (h : jsParseFloat s = v)
    (hv : v ≠ .nan) : s ≠ "" := by
  intro he
  rw [he, (by decide : jsParseFloat "" = JsNum.nan)] at h
  exact hv h.symm

/-- C7: a crop request supplying only some of the rectangle fields is
rejected with InvalidInput (HTTP 400) through the incomplete-rectangle
check; it is never treated as an aspect-mode crop, even when an aspect
field is also present (the fields record is arbitrary, so the aspect field
may hold anything). -/
theorem crop_partial_rect_rejected (f : CropFields)
    (hsome : (intField f.x).isSome = true ∨ (intField f.y).isSome = true ∨
      (intField f.width).isSome = true ∨ (intField f.height).isSome = true)
    (hnone : (intField f.x).isNone = true ∨ (intField f.y).isNone = true ∨
      (intField f.width).isNone = true ∨ (intField f.height).isNone = true) :
    cropValidate f = .error (.invalidInput rectIncompleteMsg) := by
  have h1 : ((intField f.x).isSome || (intField f.y).isSome ||
      (intField f.width).isSome || (intField f.height).isSome) = true := by
    rcases hsome with h | h | h | h <;> simp [h]
  have h2 : ((intField f.x).isNone || (intField f.y).isNone ||
      (intField f.width).isNone || (intField f.height).isNone) = true := by
    rcases hnone with h | h | h | h <;> simp [h]
  simp [cropValidate, h1, h2]

/-- Witness for C7: a request with only x and y (and an aspect field)
rejects with the incomplete-rectangle error. -/
theorem crop_partial_rect_rejected_witness :
    cropValidate { x := some "10", y := some "20", aspect := some "1:1" } =
      .error (.invalidInput rectIncompleteMsg) :=
  crop_partial_rect_rejected _ (Or.inl (by decide))
    (Or.inr (Or.inr (Or.inl (by decide))))

/-- Counterexample to C3 as stated: a crop request whose quality field is
"0" (the integer 0, outside [1,100]) passes validation and produces the
external processing call, because 0 is falsy in the route's
`if (quality && ...)` guard. -/
theorem crop_quality_zero_accepted :
    cropValidate { aspect := some "1:1", quality := some "0" } =
      .ok { x := none, y := none, width := none, height := none,
            aspect := some "1:1", gravity := "center", format := "jpg",
            quality := some (.dec 0 0) } := by
  rfl

/-- C3 (amended): a quality field parsing to a nonzero integer outside
[1,100], a feather parsing to a number outside [0,10], a threshold parsing
to an integer outside [0,255], or a maxColors parsing to an integer outside
[1,10] each make the route respond with InvalidInput (HTTP 400), so the
external processing call is never invoked; a quality of exactly 0 is falsy
in the route's guard and is accepted instead. -/
theorem range_validation_rejects_amended :
    (∀ (f : CropFields) (s : String) (n : ℤ), f.quality = some s →
      jsParseInt s = .dec n 0 → n ≠ 0 → (n < 1 ∨ 100 < n) →
      isInvalidInput (cropValidate f)) ∧
    (∀ (f : RemoveBgFields) (s : String) (v : ℚ), f.feather = some s →
      (jsParseFloat s).val = some v → (v < 0 ∨ 10 < v) →
      isInvalidInput (removeBgValidate f)) ∧
    (∀ (f : RemoveBgFields) (s : String) (n : ℤ), f.threshold = some s →
      jsParseInt s = .dec n 0 → (n < 0 ∨ 255 < n) →
      isInvalidInput (removeBgValidate f)) ∧
    (∀ (f : ExtractColorsFields) (s : String) (n : ℤ), f.maxColors = some s →
      jsParseInt s = .dec n 0 → (n < 1 ∨ 10 < n) →
      isInvalidInput (extractColorsValidate f)) := by
  refine ⟨?_, ?_, ?_, ?_⟩
  · intro f s n hs hp hn0 hrange
    have hse : s ≠ "" := jsParseInt_ne_empty hp
    have hq : intField f.quality = some (JsNum.dec n 0) := by
      rw [hs]
      simp [intField, hse, hp]
    have hc : (optNumTruthy (intField f.quality) &&
        (jsLtOpt (intField f.quality) 1 || jsGtOpt (intField f.quality) 100)) = true := by
      rw [hq]
      simp [optNumTruthy, JsNum.truthy, jsLtOpt, jsGtOpt, JsNum.ltB, hn0]
      omega
    simp only [cropValidate, hc]
    split_ifs <;> trivial
  · intro f s v hs hval hrange
    obtain ⟨m, e, hp, hv⟩ : ∃ m e, jsParseFloat s = .dec m e ∧ v = (m : ℚ) / 10 ^ e := by
      cases hpf : jsParseFloat s with
      | nan => rw [hpf] at hval; exact absurd hval (by simp [JsNum.val])
      | dec m e =>
          rw [hpf] at hval
          simp only [JsNum.val, Option.some.injEq] at hval
          exact ⟨m, e, rfl, hval.symm⟩
    have hse : s ≠ "" := jsParseFloat_ne_empty hp (by intro h; cases h)
    have hq : floatField f.feather = some (JsNum.dec m e) := by
      rw [hs]
      simp [floatField, hse, hp]
    have hc : ((floatField f.feather).isSome &&
        (jsLtOpt (floatField f.feather) 0 || jsGtOpt (floatField f.feather) 10)) = true := by
      rw [hq]
      subst hv
      rcases hrange with h | h
      · have hlt : (JsNum.dec m e).ltB (.dec 0 0) = true := by
          rw [JsNum.ltB_eq_true_iff]
          simpa using h
        simp [jsLtOpt, hlt]
      · have hgt : (JsNum.dec 10 0).ltB (.dec m e) = true := by
          rw [JsNum.ltB_eq_true_iff]
          simpa using h
        simp [jsGtOpt, hgt]
    simp only [removeBgValidate, hc]
    split_ifs <;> trivial
  · intro f s n hs hp hrange
    have hse : s ≠ "" := jsParseInt_ne_empty hp
    have hq : intField f.threshold = some (JsNum.dec n 0) := by
      rw [hs]
      simp [intField, hse, hp]
    have hc : ((intField f.threshold).isSome &&
        (jsLtOpt (intField f.threshold) 0 || jsGtOpt (intField f.threshold) 255)) = true := by
      rw [hq]
      simp [jsLtOpt, jsGtOpt, JsNum.ltB]
      omega
    simp only [removeBgValidate, hc]
    split_ifs <;> trivial
  · intro f s n hs hp hrange
    have hse : s ≠ "" := jsParseInt_ne_empty hp
    have hq : (match f.maxColors with
        | none => JsNum.dec 3 0
        | some s => if s = "" then JsNum.dec 3 0 else jsParseInt s) = JsNum.dec n 0 := by
      rw [hs]
      simp [hse, hp]
    have hc : ((JsNum.dec n 0).ltB (.dec 1 0) || (JsNum.dec 10 0).ltB (.dec n 0)) = true := by
      simp [JsNum.ltB]
      omega
    simp only [extractColorsValidate, hq, hc]
    split_ifs <;> trivial

/-- Witness for the amended C3 at concrete out-of-range inputs: quality
101, feather 10.5, threshold 256 and maxColors 11 each reject with
InvalidInput. -/
theorem range_validation_rejects_amended_witness :
    isInvalidInput (cropValidate { aspect := some "1:1", quality := some "101" }) ∧
    isInvalidInput (removeBgValidate { feather := some "10.5" }) ∧
    isInvalidInput (removeBgValidate { threshold := some "256" }) ∧
    isInvalidInput (extractColorsValidate { maxColors := some "11" }) := by
  refine ⟨?_, ?_, ?_, ?_⟩
  · exact range_validation_rejects_amended.1 _ "101" 101 rfl (by decide)
      (by norm_num) (by norm_num)
  · refine range_validation_rejects_amended.2.1 _ "10.5" (21 / 2) rfl ?_ (by norm_num)
    rw [(by decide : jsParseFloat "10.5" = JsNum.dec 105 1)]
    simp [JsNum.val]
    norm_num
  · exact range_validation_rejects_amended.2.2.1 _ "256" 256 rfl (by decide)
      (by norm_num)
  · exact range_validation_rejects_amended.2.2.2 _ "11" 11 rfl (by decide)
      (by norm_num)

/-- Counterexample to C8 as stated: a crop request whose quality field is
the non-numeric string "abc" is not rejected; parseInt yields NaN, NaN is
falsy in the route's quality guard, and the request passes validation and
produces the external processing call. -/
theorem crop_nonnumeric_quality_accepted :
    cropValidate { aspect := some "1:1", quality := some "abc" } =
      .ok { x := none, y := none, width := none, height := none,
            aspect := some "1:1", gravity := "center", format := "jpg",
            quality := some .nan } := by
  rfl

/-- C8 (amended): integer form fields are parsed with JavaScript parseInt
semantics, and a non-numeric value parses to NaN, which every range
comparison treats as false, so the request is not rejected with
InvalidInput: a NaN quality passes validation and is forwarded as unset
downstream, and NaN rectangle coordinates pass the route's range checks
and are forwarded to the external processing call. -/
theorem crop_nan_passes_validation (s : String)
    (h1 : jsParseInt s = JsNum.nan) (h2 : s ≠ "") :
    cropValidate { aspect := some "1:1", quality := some s } =
      .ok { x := none, y := none, width := none, height := none,
            aspect := some "1:1", gravity := "center", format := "jpg",
            quality := some .nan } ∧
    cropValidate
        { x := some s, y := some "0", width := some "100", height := some "100" } =
      .ok { x := some .nan, y := some (.dec 0 0), width := some (.dec 100 0),
            height := some (.dec 100 0), aspect := none, gravity := "center",
            format := "jpg", quality := none } := by
  have hq : intField (some s) = some JsNum.nan := by
    simp [intField, h2, h1]
  constructor
  · simp only [cropValidate, hq]
    rfl
  · simp only [cropValidate, hq]
    rfl

/-- Witness for the amended C8 at the concrete non-numeric string
"hello". -/
theorem crop_nan_passes_validation_witness :
    cropValidate { aspect := some "1:1", quality := some "hello" } =
      .ok { x := none, y := none, width := none, height := none,
            aspect := some "1:1", gravity := "center", format := "jpg",
            quality := some .nan } ∧
    cropValidate
        { x := some "hello", y := some "0", width := some "100",
          height := some "100" } =
      .ok { x := some .nan, y := some (.dec 0 0), width := some (.dec 100 0),
            height := some (.dec 100 0), aspect := none, gravity := "center",
            format := "jpg", quality := none } :=
  crop_nan_passes_validation "hello" (by decide) (by decide)

/-- C2 evaluated at the failing input: the aspect string "16:0" passes the
crop route's pattern validation and reaches the service call, and the
service's `aspect.split(":").map(Number)` yields 0 as the aspect height,
so `targetAspect = aspectWidth / aspectHeight` is computed with a zero
denominator, contradicting the required rejection at validation time. -/
theorem crop_zero_aspect_not_rejected :
    cropValidate { aspect := some "16:0" } =
      .ok { x := none, y := none, width := none, height := none,
            aspect := some "16:0", gravity := "center", format := "jpg",
            quality := none } ∧
    parseAspectPair "16:0" = (JsNum.dec 16 0, JsNum.dec 0 0) := by
  exact ⟨by rfl, by rfl⟩

/-- One non-null swatch handed to the post-processing by the external
palette extraction (src/unnamed/part_002 lines 259-268): its hex string
and pixel population; the name and rgb fields play no role in the
post-processing logic. -/
structure InputSwatch where
  hex : String
  population : ℕ
  deriving DecidableEq, Repr

/-- One swatch of the extract-colors response
(src/unnamed/part_002 lines 300-306). -/
structure OutSwatch where
  hex : String
  colorName : String
  population : ℕ
  percentage : ℤ
  deriving DecidableEq, Repr

/-- The palette object of a non-empty extract-colors response
(src/unnamed/part_002 lines 299-308). -/
structure PaletteInfo where
  swatches : List OutSwatch
  totalPopulation : ℕ
  isMulticolor : Bool
  deriving DecidableEq, Repr

/-- The extract-colors response: `palette := none` models the empty object
literal returned when no swatch is available. -/
structure ExtractColorsResult where
  colors : List String
  palette : Option PaletteInfo
  deriving DecidableEq, Repr

/-- Models `[...new Set(xs)]`: removes duplicates keeping the first
occurrence of each element. -/
def jsSetDedup (xs : List String) : List String :=
  xs.foldl (fun acc x => if x ∈ acc then acc else acc ++ [x]) []

/-- Models the descending-population sort
`swatches.sort((a, b) => b.population - a.population)` as a stable
insertion sort. -/
def sortByPopDesc (l : List InputSwatch) : List InputSwatch :=
  List.insertionSort (fun a b => b.population ≤ a.population) l

/-- Models the post-processing of `ImageService.extractColors`
(src/unnamed/part_002 lines 258-311) applied to the non-null swatches the
external extraction produced: sort by population, keep the first
`maxColors`, return the empty result when nothing is left, otherwise name
the colors through the external `nameOf` lookup, deduplicate, total the
populations, set the multicolor flag when at least three kept swatches
each reach the threshold share, append "multicolor" to the color list when
flagged and not already present, and build the response swatches with
their rounded percentage shares. -/
def extractColorsPost (swatches0 : List InputSwatch) (maxColors : ℕ) (thr : ℚ)
    (nameOf : String → String) : ExtractColorsResult :=
  let swatches := (sortByPopDesc swatches0).take maxColors
  if swatches.isEmpty then { colors := [], palette := none }
  else
    let colorNames := swatches.map (fun s => nameOf s.hex)
    let uniqueColorNames := jsSetDedup colorNames
    let totalPopulation := (swatches.map InputSwatch.population).sum
    let isMulticolor := decide (3 ≤ swatches.length) &&
      swatches.all (fun s => decide (thr ≤ (s.population : ℚ) / totalPopulation))
    let finalColors :=
      if isMulticolor && !(uniqueColorNames.contains "multicolor") then
        uniqueColorNames ++ ["multicolor"]
      else uniqueColorNames
    { colors := finalColors,
      palette := some
        { swatches := swatches.map (fun s =>
            { hex := s.hex, colorName := nameOf s.hex, population := s.population,
              percentage := round (((s.population : ℚ) / totalPopulation) * 100) }),
          totalPopulation := totalPopulation,
          isMulticolor := isMulticolor } }

/-- C9: when the external palette extraction yields zero non-null
swatches, extractColors returns the empty colors array together with the
empty palette object, not the documented palette structure. -/
theorem extractColors_empty_swatches (maxColors : ℕ) (thr : ℚ)
    (nameOf : String → String) :
    extractColorsPost [] maxColors thr nameOf = { colors := [], palette := none } := by
  simp [extractColorsPost, sortByPopDesc]

/-- C4: the multicolor flag of a non-empty extract-colors result is true
exactly when the returned swatch set has at least 3 swatches and every
returned swatch's population divided by the total population of the
returned swatches reaches the multicolor threshold; in particular the
flag is false whenever fewer than 3 swatches are returned. -/
theorem extractColors_multicolor_iff (swatches0 : List InputSwatch)
    (maxColors : ℕ) (thr : ℚ) (nameOf : String → String) (p : PaletteInfo)
    (h : (extractColorsPost swatches0 maxColors thr nameOf).palette = some p) :
    (p.isMulticolor = true ↔
      (3 ≤ p.swatches.length ∧
        ∀ s ∈ p.swatches, thr ≤ (s.population : ℚ) / p.totalPopulation)) ∧
    (p.swatches.length < 3 → p.isMulticolor = false) := by
  rw [extractColorsPost] at h
  set sel := (sortByPopDesc swatches0).take maxColors with hsel
  by_cases he : sel.isEmpty
  · simp [he] at h
  · simp only [he, Bool.false_eq_true, if_false, Option.some.injEq] at h
    subst h
    simp only [List.length_map]
    constructor
    · rw [Bool.and_eq_true, decide_eq_true_eq, List.all_eq_true]
      constructor
      · rintro ⟨hlen, hall⟩
        refine ⟨hlen, ?_⟩
        intro s hs
        obtain ⟨x, hx, rfl⟩ := List.mem_map.mp hs
        simpa using hall x hx
      · rintro ⟨hlen, hall⟩
        refine ⟨hlen, ?_⟩
        intro x hx
        have hxall := hall _ (List.mem_map_of_mem _ hx)
        simpa using hxall
    · intro hlen
      rw [Bool.and_eq_false_iff]
      left
      simpa using hlen

/-- Witness for C4 at a concrete palette: three swatches with populations
5, 3, 2 out of 10 all reach the threshold 1/5, so the flag is true and the
characterization holds. -/
theorem extractColors_multicolor_iff_witness :
    ((PaletteInfo.mk [⟨"#a", "blue", 5, 50⟩, ⟨"#b", "blue", 3, 30⟩,
        ⟨"#c", "blue", 2, 20⟩] 10 true).isMulticolor = true ↔
      (3 ≤ (PaletteInfo.mk [⟨"#a", "blue", 5, 50⟩, ⟨"#b", "blue", 3, 30⟩,
        ⟨"#c", "blue", 2, 20⟩] 10 true).swatches.length ∧
        ∀ s ∈ (PaletteInfo.mk [⟨"#a", "blue", 5, 50⟩, ⟨"#b", "blue", 3, 30⟩,
          ⟨"#c", "blue", 2, 20⟩] 10 true).swatches,
          (1 / 5 : ℚ) ≤ (s.population : ℚ) /
            (PaletteInfo.mk [⟨"#a", "blue", 5, 50⟩, ⟨"#b", "blue", 3, 30⟩,
              ⟨"#c", "blue", 2, 20⟩] 10 true).totalPopulation)) ∧
    ((PaletteInfo.mk [⟨"#a", "blue", 5, 50⟩, ⟨"#b", "blue", 3, 30⟩,
        ⟨"#c", "blue", 2, 20⟩] 10 true).swatches.length < 3 →
      (PaletteInfo.mk [⟨"#a", "blue", 5, 50⟩, ⟨"#b", "blue", 3, 30⟩,
        ⟨"#c", "blue", 2, 20⟩] 10 true).isMulticolor = false) :=
  extractColors_multicolor_iff [⟨"#a", 5⟩, ⟨"#b", 3⟩, ⟨"#c", 2⟩] 3 (1 / 5)
    (fun _ => "blue") _ (by
      norm_num [extractColorsPost, sortByPopDesc, List.insertionSort,
        List.orderedInsert, jsSetDedup, List.all, String.reduceEq])

/-- C10: in every non-empty extract-colors result with positive total
population, the total population is the sum of the populations of the
returned swatches and each returned swatch's percentage equals
round(100 * population / totalPopulation), an integer between 0 and
100. -/
theorem extractColors_percentage (swatches0 : List InputSwatch)
    (maxColors : ℕ) (thr : ℚ) (nameOf : String → String) (p : PaletteInfo)
    (h : (extractColorsPost swatches0 maxColors thr nameOf).palette = some p)
    (hpos : 0 < p.totalPopulation) :
    p.totalPopulation = (p.swatches.map OutSwatch.population).sum ∧
    ∀ s ∈ p.swatches,
      s.percentage = round (((s.population : ℚ) / p.totalPopulation) * 100) ∧
      0 ≤ s.percentage ∧ s.percentage ≤ 100 := by
  rw [extractColorsPost] at h
  set sel := (sortByPopDesc swatches0).take maxColors with hsel
  by_cases he : sel.isEmpty
  · simp [he] at h
  · simp only [he, Bool.false_eq_true, if_false, Option.some.injEq] at h
    subst h
    constructor
    · rw [List.map_map]
      rfl
    · intro s hs
      obtain ⟨x, hx, rfl⟩ := List.mem_map.mp hs
      refine ⟨rfl, ?_, ?_⟩
      · exact round_nonneg_of_nonneg (by positivity)
      · apply round_le_int
        have hx_le : x.population ≤ (sel.map InputSwatch.population).sum :=
          List.single_le_sum (fun y _ => Nat.zero_le y) _
            (List.mem_map_of_mem _ hx)
        have ht : (0 : ℚ) < ((sel.map InputSwatch.population).sum : ℚ) := by
          exact_mod_cast hpos
        have hle : ((x.population : ℚ) /
            ((sel.map InputSwatch.population).sum : ℚ)) ≤ 1 := by
          rw [div_le_one ht]
          exact_mod_cast hx_le
        calc (x.population : ℚ) / ((sel.map InputSwatch.population).sum : ℚ) * 100
            ≤ 1 * 100 := mul_le_mul_of_nonneg_right hle (by norm_num)
          _ = ((100 : ℤ) : ℚ) := by norm_num

/-- Witness for C10 at a concrete palette: populations 6, 3, 1 out of 10
give percentages 60, 30 and 10, the formula holds and every percentage
lies between 0 and 100. -/
theorem extractColors_percentage_witness :
    (PaletteInfo.mk [⟨"#x", "red", 6, 60⟩, ⟨"#y", "red", 3, 30⟩,
        ⟨"#z", "red", 1, 10⟩] 10 false).totalPopulation =
      ((PaletteInfo.mk [⟨"#x", "red", 6, 60⟩, ⟨"#y", "red", 3, 30⟩,
        ⟨"#z", "red", 1, 10⟩] 10 false).swatches.map OutSwatch.population).sum ∧
    ∀ s ∈ (PaletteInfo.mk [⟨"#x", "red", 6, 60⟩, ⟨"#y", "red", 3, 30⟩,
        ⟨"#z", "red", 1, 10⟩] 10 false).swatches,
      s.percentage = round (((s.population : ℚ) /
        (PaletteInfo.mk [⟨"#x", "red", 6, 60⟩, ⟨"#y", "red", 3, 30⟩,
          ⟨"#z", "red", 1, 10⟩] 10 false).totalPopulation) * 100) ∧
      0 ≤ s.percentage ∧ s.percentage ≤ 100 :=
  extractColors_percentage [⟨"#x", 6⟩, ⟨"#y", 3⟩, ⟨"#z", 1⟩] 3 (1 / 5)
    (fun _ => "red") _ (by
      norm_num [extractColorsPost, sortByPopDesc, List.insertionSort,
        List.orderedInsert, jsSetDedup, List.all, String.reduceEq]) (by norm_num)
